import Mathlib

/-!
Verification of the DashStreamlit extraction-and-aggregation core.

The repository's dashboards turn a semi-structured test report into a flat
list of records and KPIs.  This file embeds the record-extraction and
aggregation logic of `DashQA.py` (`processar_dados_extraidos`),
`Dash_Plataforma.py` (`process_extracted_data`), `Dash_KPI_readDOC.py`
(`parse_status` and the status tally of `extract_data_from_html_doc`),
`Dash_html_read.py` and `Dashxml.py` (input decoding and XML status
mapping), and proves properties of those embeddings.

Lines of text are modelled as `List Char`.  The Python regular expressions
used by the sources are embedded as explicit leftmost-search matching
functions returning the captured groups; each matcher carries a doc comment
naming the regex it implements.
-/

/-- A line of input text, as produced by Python's `text.split('\n')`. -/
abbrev Line := List Char

/-- Python `\s` whitespace (ASCII part: the source texts never use the wider
Unicode whitespace). -/
def isPySpace (c : Char) : Bool :=
  c = ' ' || c = '\t' || c = '\n' || c = '\r' || c = Char.ofNat 11 || c = Char.ofNat 12

/-- Python `\w` word character, restricted to ASCII plus the Latin-1 letter
block (the sources' texts are Portuguese, wholly inside Latin-1):
alphanumerics, underscore, `ª µ º`, and `À`..`ÿ` except `×` and `÷`. -/
def isPyWord (c : Char) : Bool :=
  c.isAlphanum || c = '_' || c.toNat = 0xAA || c.toNat = 0xB5 || c.toNat = 0xBA ||
    (0xC0 ≤ c.toNat && c.toNat ≤ 0xFF && c.toNat ≠ 0xD7 && c.toNat ≠ 0xF7)

/-- Python `str.lower`, restricted to ASCII and the Latin-1 letter block. -/
def pyToLower (c : Char) : Char :=
  if 'A' ≤ c && c ≤ 'Z' then Char.ofNat (c.toNat + 32)
  else if 0xC0 ≤ c.toNat && c.toNat ≤ 0xDE && c.toNat ≠ 0xD7 then Char.ofNat (c.toNat + 32)
  else c

/-- Python `str.strip()`: remove leading and trailing whitespace. -/
def pyStrip (cs : Line) : Line :=
  ((cs.dropWhile isPySpace).reverse.dropWhile isPySpace).reverse

/-- Match a literal at the head of the input; return the remainder. -/
def expectLit : Line → Line → Option Line
  | [], cs => some cs
  | _ :: _, [] => none
  | p :: ps, c :: cs => if c = p then expectLit ps cs else none

/-- Case-insensitive variant of `expectLit` (the pattern is given in lower
case); models a literal inside a regex compiled with `re.IGNORECASE`. -/
def expectLitCI : Line → Line → Option Line
  | [], cs => some cs
  | _ :: _, [] => none
  | p :: ps, c :: cs => if pyToLower c = p then expectLitCI ps cs else none

/-- Python's substring test `pat in cs`. -/
def hasSub : Line → Line → Bool
  | [], pat => (expectLit pat []).isSome
  | c :: cs, pat => (expectLit pat (c :: cs)).isSome || hasSub cs pat

/-- Case-insensitive substring test; models
`pandas.Series.str.contains(pat, case=False)` for a pattern that is free of
regex metacharacters. -/
def containsCI (cs pat : Line) : Bool :=
  hasSub (cs.map pyToLower) (pat.map pyToLower)

/-- `re.search` semantics: try an at-this-position matcher at every position
from the left and return the first (leftmost) success. -/
def searchWith {α : Type} (m : Line → Option α) : Line → Option α
  | [] => m []
  | c :: cs =>
    match m (c :: cs) with
    | some r => some r
    | none => searchWith m cs

/-- Start positions of all occurrences of a literal. -/
def idxsOf (pat : Line) : Line → Nat → List Nat
  | [], i => if (expectLit pat []).isSome then [i] else []
  | c :: cs, i =>
    (if (expectLit pat (c :: cs)).isSome then [i] else []) ++ idxsOf pat cs (i + 1)

/-- Start position of the last occurrence of a literal, if any. -/
def lastIdxOf (pat cs : Line) : Option Nat := (idxsOf pat cs 0).getLast?

/-- ASCII `[A-Z]` (Python character classes written literally are ASCII). -/
def isUpperAZ (c : Char) : Bool := 'A' ≤ c && c ≤ 'Z'

/-- Number of occurrences of `x` in `l` (the length of the `filter`). -/
def countVal (x : Line) (l : List Line) : Nat :=
  (l.filter (fun y => y = x)).length

/-- `DataFrame.groupby(col).size()` on a list of status values: one
`(value, count)` row per distinct value. -/
def statusCounts (sts : List Line) : List (Line × Nat) :=
  sts.dedup.map (fun s => (s, countVal s sts))

/-- `df['status'].replace('Falhou', 'Falhado')` applied to one cell — the
unification step both `DashQA.py` (line 170) and `Dash_Plataforma.py`
(line 132) run before aggregating. -/
def unifyStatus (s : Line) : Line :=
  if s = ("Falhou").data then ("Falhado").data else s

/-- The KPI block computed identically by `DashQA.py` (lines 176–189) and
`Dash_Plataforma.py` (lines 137–151). -/
structure Kpis where
  total_cases : Nat
  passed_cases : Nat
  executed_cases : Nat
  percent_execution : Rat
  percent_success : Rat
deriving DecidableEq, Repr

/-- Records whose status contains "Não Executado" case-insensitively — the
complement of the code's `executed_cases` filter. -/
def nao_executado_count (sts : List Line) : Nat :=
  (sts.filter (fun s => containsCI s (("Não Executado").data))).length

/-- KPI computation from the status column:
`passed = status contains "Passou" (case-insensitive)`,
`executed = status does not contain "Não Executado" (case-insensitive)`,
percentages guarded against zero denominators exactly as in the sources. -/
def computeKpis (sts : List Line) : Kpis :=
  let total := sts.length
  let passed := (sts.filter (fun s => containsCI s (("Passou").data))).length
  let executed := (sts.filter (fun s => !containsCI s (("Não Executado").data))).length
  { total_cases := total
    passed_cases := passed
    executed_cases := executed
    percent_execution := if 0 < total then (executed : Rat) / (total : Rat) * 100 else 0
    percent_success := if 0 < executed then (passed : Rat) / (executed : Rat) * 100 else 0 }

/-- At-position matcher for `Resultado da Execução:\s*(\w+)` (defined with
this exact pattern in both `DashQA.py` line 99 and `Dash_Plataforma.py`
line 91); returns group 1. -/
def resAt (cs : Line) : Option Line :=
  match expectLit ("Resultado da Execução:").data cs with
  | none => none
  | some r1 =>
    match (r1.dropWhile isPySpace).takeWhile isPyWord with
    | [] => none
    | w => some w

/-- At-position matcher for `Estado da\s*Execução:\s*(\w+)` (both sources);
returns group 1. -/
def estAt (cs : Line) : Option Line :=
  match expectLit ("Estado da").data cs with
  | none => none
  | some r1 =>
    match expectLit ("Execução:").data (r1.dropWhile isPySpace) with
    | none => none
    | some r2 =>
      match (r2.dropWhile isPySpace).takeWhile isPyWord with
      | [] => none
      | w => some w

/-- `regex_status_res.search(line)` returning group 1. -/
def regex_status_res (l : Line) : Option Line := searchWith resAt l

/-- `regex_status_est.search(line)` returning group 1. -/
def regex_status_est (l : Line) : Option Line := searchWith estAt l

namespace DashQA

/-- At-position matcher for `\d+\. Plataforma:\s*(.*)` (`DashQA.py` line 95):
one or more digits, the literal `. Plataforma:`, then group 1 is the rest of
the line after optional whitespace. -/
def platAt (cs : Line) : Option Line :=
  match cs.takeWhile Char.isDigit with
  | [] => none
  | _ :: _ =>
    match expectLit (". Plataforma:").data (cs.dropWhile Char.isDigit) with
    | none => none
    | some rest => some (rest.dropWhile isPySpace)

/-- `regex_platform.search(line)` returning group 1. -/
def regex_platform (l : Line) : Option Line := searchWith platAt l

/-- At-position matcher for `Suite de Testes\s*:\s*([A-Z]+-\d+)\s*(.*)`
(`DashQA.py` line 97); returns (group 1, group 2). -/
def storyAt (cs : Line) : Option (Line × Line) :=
  match expectLit ("Suite de Testes").data cs with
  | none => none
  | some r1 =>
    match r1.dropWhile isPySpace with
    | ':' :: r2 =>
      let r3 := r2.dropWhile isPySpace
      match r3.takeWhile isUpperAZ, r3.dropWhile isUpperAZ with
      | [], _ => none
      | ls, '-' :: r4 =>
        match r4.takeWhile Char.isDigit with
        | [] => none
        | ds => some (ls ++ '-' :: ds, (r4.dropWhile Char.isDigit).dropWhile isPySpace)
      | _, _ => none
    | _ => none

/-- `regex_story.search(line)` returning (story id, trailing title). -/
def regex_story (l : Line) : Option (Line × Line) := searchWith storyAt l

/-- At-position matcher for `Caso de Teste\s*([A-Z]+-\d+):\s*(.*)`
(`DashQA.py` line 103); returns (group 1, group 2). -/
def tcAt (cs : Line) : Option (Line × Line) :=
  match expectLit ("Caso de Teste").data cs with
  | none => none
  | some r1 =>
    let r2 := r1.dropWhile isPySpace
    match r2.takeWhile isUpperAZ, r2.dropWhile isUpperAZ with
    | [], _ => none
    | ls, '-' :: r3 =>
      match r3.takeWhile Char.isDigit, r3.dropWhile Char.isDigit with
      | [], _ => none
      | ds, ':' :: r4 => some (ls ++ '-' :: ds, r4.dropWhile isPySpace)
      | _, _ => none
    | _, _ => none

/-- `regex_test_case.search(line)` returning (test-case id, name). -/
def regex_test_case (l : Line) : Option (Line × Line) := searchWith tcAt l

/-- At-position matcher for `Comentários\s*(.*)\s*https:\/\/.*`
(`DashQA.py` line 105).  The greedy `(.*)` followed by `\s*https://` makes
group 1 run from after the leading whitespace up to the start of the LAST
`https://` occurrence. -/
def commentsAt (cs : Line) : Option Line :=
  match expectLit ("Comentários").data cs with
  | none => none
  | some r1 =>
    let rest := r1.dropWhile isPySpace
    match lastIdxOf ("https://").data rest with
    | none => none
    | some i => some (rest.take i)

/-- `regex_comments.search(line)` returning group 1. -/
def regex_comments (l : Line) : Option Line := searchWith commentsAt l

/-- One row of `raw_test_data` in `processar_dados_extraidos`. -/
structure QaRecord where
  platform : Line
  story_id : Line
  story_title : Line
  test_case_id : Line
  test_case_name : Line
  status : Line
  comments : Line
deriving DecidableEq, Repr

/-- The running context of `processar_dados_extraidos`: current platform and
current story id/title. -/
structure QaState where
  platform : Line
  story_id : Line
  story_title : Line
deriving DecidableEq, Repr

/-- Initial context: the "Não Identificado" sentinels (`DashQA.py`
lines 90–92). -/
def qaInit : QaState :=
  ⟨("Não Identificado").data, ("Não Identificado").data, ("Não Identificado").data⟩

/-- One step of the status/comment lookahead loop (`DashQA.py`
lines 133–143): on each window line the `Resultado da Execução` capture
overwrites the status, then the `Estado da Execução` capture overwrites it
again, then the comments capture overwrites the comment; values persist when
a regex does not match. -/
def statusLineUpd (acc : Line × Line) (ln : Line) : Line × Line :=
  let s1 := match regex_status_res ln with
    | some w => pyStrip w
    | none => acc.1
  let s2 := match regex_status_est ln with
    | some w => pyStrip w
    | none => s1
  let c1 := match regex_comments ln with
    | some w => pyStrip w
    | none => acc.2
  (s2, c1)

/-- The whole lookahead loop over a window of raw (unstripped) lines,
starting from the defaults `status = "Não Executado"`, `comments = ""`. -/
def scanStatusComments (window : List Line) : Line × Line :=
  window.foldl statusLineUpd (("Não Executado").data, [])

/-- The line loop of `processar_dados_extraidos` (`DashQA.py` lines
108–156): strip the line; a platform match updates the platform; otherwise a
story match updates the story id/title; otherwise a test-case match scans a
window of the current line plus the next nine raw lines for status and
comments, and appends a record only when the current story id is not the
"Não Identificado" sentinel; other lines are skipped. -/
def qaGo (st : QaState) : List Line → List QaRecord
  | [] => []
  | line :: rest =>
    let l := pyStrip line
    match regex_platform l with
    | some p => qaGo { st with platform := pyStrip p } rest
    | none =>
      match regex_story l with
      | some g => qaGo { st with story_id := pyStrip g.1, story_title := pyStrip g.2 } rest
      | none =>
        match regex_test_case l with
        | some g =>
          let sc := scanStatusComments ((line :: rest).take 10)
          (if st.story_id ≠ (("Não Identificado").data) then
            [⟨st.platform, st.story_id, st.story_title, pyStrip g.1, pyStrip g.2, sc.1, sc.2⟩]
          else []) ++ qaGo st rest
        | none => qaGo st rest

/-- The context evolution of one line of `qaGo`, in isolation: platform and
story headers update the cursors (platform first, `continue` semantics);
every other line leaves them unchanged. -/
def qaStep (st : QaState) (line : Line) : QaState :=
  let l := pyStrip line
  match regex_platform l with
  | some p => { st with platform := pyStrip p }
  | none =>
    match regex_story l with
    | some g => { st with story_id := pyStrip g.1, story_title := pyStrip g.2 }
    | none => st

/-- The grouping key of `df_stories` (`DashQA.py` line 173). -/
def qaKey (r : QaRecord) : Line × Line × Line × Line :=
  (r.platform, r.story_id, r.story_title, r.status)

/-- `groupby(['platform','story_id','story_title','status']).size()`. -/
def groupedCounts (rs : List QaRecord) : List ((Line × Line × Line × Line) × Nat) :=
  (rs.map qaKey).dedup.map (fun k => (k, ((rs.map qaKey).filter (fun y => y = k)).length))

/-- The dictionary returned by `processar_dados_extraidos`; `warned` records
whether the empty-input warning branch was taken, and `kpis = none` models
the empty `{}` KPI dictionary of that branch. -/
structure QaResult where
  warned : Bool
  df_status : List (Line × Nat)
  kpis : Option Kpis
  df_stories : List ((Line × Line × Line × Line) × Nat)
  df_platform_stories : List QaRecord
deriving DecidableEq, Repr

/-- `processar_dados_extraidos` (`DashQA.py` lines 78–196) over an already
split list of lines: extract raw records; if none were found return the
explicitly empty result (plus a warning); otherwise unify
`Falhou ↦ Falhado`, aggregate status counts, KPIs and grouped counts. -/
def processar_dados_extraidos (lines : List Line) : QaResult :=
  match qaGo qaInit lines with
  | [] => ⟨true, [], none, [], []⟩
  | r :: raw =>
    let rs := (r :: raw).map (fun x => { x with status := unifyStatus x.status })
    let sts := rs.map (fun x => x.status)
    ⟨false, statusCounts sts, some (computeKpis sts), groupedCounts rs, rs⟩

end DashQA

namespace Dash_Plataforma

/-- At-position matcher for `\d*\.?\s*Plataforma\s*:\s*(\w+)` with
`re.IGNORECASE` (`Dash_Plataforma.py` line 90); returns group 1.  The
`\d*\.?\s*` prefix is entirely optional and precedes the capture, so the
leftmost match and its group are determined by the first case-insensitive
`Plataforma` occurrence followed by `\s*:\s*` and at least one word
character. -/
def platAt (cs : Line) : Option Line :=
  match expectLitCI ("plataforma").data cs with
  | none => none
  | some r1 =>
    match r1.dropWhile isPySpace with
    | ':' :: r2 =>
      match (r2.dropWhile isPySpace).takeWhile isPyWord with
      | [] => none
      | w => some w
    | _ => none

/-- `regex_platform.search(line)` returning group 1. -/
def regex_platform (l : Line) : Option Line := searchWith platAt l

/-- At-position matcher for `Suite de Testes\s*:\s*([\w-]+)`
(`Dash_Plataforma.py` line 88); returns group 1. -/
def storyAt (cs : Line) : Option Line :=
  match expectLit ("Suite de Testes").data cs with
  | none => none
  | some r1 =>
    match r1.dropWhile isPySpace with
    | ':' :: r2 =>
      match (r2.dropWhile isPySpace).takeWhile (fun c => isPyWord c || c = '-') with
      | [] => none
      | w => some w
    | _ => none

/-- `regex_story.search(line)` returning group 1. -/
def regex_story (l : Line) : Option Line := searchWith storyAt l

/-- `regex_status_res.search(line) or regex_status_est.search(line)`
(`Dash_Plataforma.py` line 111). -/
def statusSearch (l : Line) : Option Line :=
  match regex_status_res l with
  | some w => some w
  | none => regex_status_est l

/-- One row of `raw_test_data` in `process_extracted_data`. -/
structure PRecord where
  platform : Line
  story_id : Line
  status : Line
deriving DecidableEq, Repr

/-- The running context of `process_extracted_data`. -/
structure PState where
  platform : Line
  story_id : Line
deriving DecidableEq, Repr

/-- Initial context: the "Não Identificada" sentinels (`Dash_Plataforma.py`
lines 83–84). -/
def pInit : PState := ⟨("Não Identificada").data, ("Não Identificada").data⟩

/-- The line loop of `process_extracted_data` (`Dash_Plataforma.py` lines
94–119): strip the line; a platform match updates the platform; otherwise a
story match updates the story id; otherwise a status match appends a record
with the current context — unconditionally, sentinels included. -/
def pGo (st : PState) : List Line → List PRecord
  | [] => []
  | line :: rest =>
    let l := pyStrip line
    match regex_platform l with
    | some p => pGo ⟨pyStrip p, st.story_id⟩ rest
    | none =>
      match regex_story l with
      | some sid => pGo ⟨st.platform, pyStrip sid⟩ rest
      | none =>
        match statusSearch l with
        | some w => ⟨st.platform, st.story_id, pyStrip w⟩ :: pGo st rest
        | none => pGo st rest

/-- The context evolution of one line of `pGo`, in isolation. -/
def pStep (st : PState) (line : Line) : PState :=
  let l := pyStrip line
  match regex_platform l with
  | some p => ⟨pyStrip p, st.story_id⟩
  | none =>
    match regex_story l with
    | some sid => ⟨st.platform, pyStrip sid⟩
    | none => st

/-- The dictionary returned by `process_extracted_data`; `kpis = none`
models the empty `{}` KPI dictionary of the warning branch. -/
structure PResult where
  warned : Bool
  df_status : List (Line × Nat)
  kpis : Option Kpis
  df_tests : List PRecord
deriving DecidableEq, Repr

/-- `process_extracted_data` (`Dash_Plataforma.py` lines 72–157) over an
already split list of lines. -/
def process_extracted_data (lines : List Line) : PResult :=
  match pGo pInit lines with
  | [] => ⟨true, [], none, []⟩
  | r :: raw =>
    let rs := (r :: raw).map (fun x => { x with status := unifyStatus x.status })
    let sts := rs.map (fun x => x.status)
    ⟨false, statusCounts sts, some (computeKpis sts), rs⟩

end Dash_Plataforma

namespace Dash_KPI_readDOC

/-- `parse_status` (`Dash_KPI_readDOC.py` lines 96–109): lower-case the
text, then test the canonical substrings in order; unrecognized text maps to
`none` (Python `None`). -/
def parse_status (status_text : Line) : Option Line :=
  let s := status_text.map pyToLower
  if hasSub s ("passou").data then some (("Passou").data)
  else if hasSub s ("falhado").data || hasSub s ("falhou").data then some (("Falhou").data)
  else if hasSub s ("bloqueado").data then some (("Bloqueado").data)
  else if hasSub s ("não executado").data then some (("Não Executado").data)
  else none

/-- The per-row status accumulation of `extract_data_from_html_doc`
(`Dash_KPI_readDOC.py` lines 158–167), abstracted over the list of
`Resultado da Execução` cell texts extracted from one platform's tables:
each cell is normalized by `parse_status` and counted only when the result
is truthy (`if status:`), so unrecognized cells contribute nothing. -/
def status_tally (statusTexts : List Line) : List (Line × Nat) :=
  statusCounts (statusTexts.filterMap parse_status)

end Dash_KPI_readDOC

/-- A continuation byte `0x80..0xBF`. -/
def utf8Cont (b : Nat) : Bool := 0x80 ≤ b && b ≤ 0xBF

/-- Strict UTF-8 decoding of a byte sequence, as performed by Python's
`bytes.decode('utf-8')`: `none` models a raised `UnicodeDecodeError`
(truncated sequences, stray continuation bytes, overlong forms, surrogates
and out-of-range lead bytes all fail). -/
def decodeUtf8 : List Nat → Option (List Char)
  | [] => some []
  | b :: bs =>
    if b ≤ 0x7F then
      match decodeUtf8 bs with
      | some cs => some (Char.ofNat b :: cs)
      | none => none
    else if b ≤ 0xC1 then none
    else if b ≤ 0xDF then
      match bs with
      | b1 :: bs1 =>
        if utf8Cont b1 then
          match decodeUtf8 bs1 with
          | some cs => some (Char.ofNat ((b - 0xC0) * 64 + (b1 - 0x80)) :: cs)
          | none => none
        else none
      | [] => none
    else if b ≤ 0xEF then
      match bs with
      | b1 :: b2 :: bs2 =>
        if (if b = 0xE0 then decide (0xA0 ≤ b1) && decide (b1 ≤ 0xBF)
            else if b = 0xED then decide (0x80 ≤ b1) && decide (b1 ≤ 0x9F)
            else utf8Cont b1) && utf8Cont b2 then
          match decodeUtf8 bs2 with
          | some cs =>
            some (Char.ofNat ((b - 0xE0) * 4096 + (b1 - 0x80) * 64 + (b2 - 0x80)) :: cs)
          | none => none
        else none
      | _ => none
    else if b ≤ 0xF4 then
      match bs with
      | b1 :: b2 :: b3 :: bs3 =>
        if (if b = 0xF0 then decide (0x90 ≤ b1) && decide (b1 ≤ 0xBF)
            else if b = 0xF4 then decide (0x80 ≤ b1) && decide (b1 ≤ 0x8F)
            else utf8Cont b1) && utf8Cont b2 && utf8Cont b3 then
          match decodeUtf8 bs3 with
          | some cs =>
            some (Char.ofNat
              ((b - 0xF0) * 262144 + (b1 - 0x80) * 4096 + (b2 - 0x80) * 64 + (b3 - 0x80)) :: cs)
          | none => none
        else none
      | _ => none
    else none

/-- Python's `bytes.decode('latin-1')`: total, one character per byte. -/
def decodeLatin1 (bs : List Nat) : List Char := bs.map Char.ofNat

namespace Dash_KPI_readDOC

/-- The decoding step of `extract_data_from_html_doc`
(`Dash_KPI_readDOC.py` lines 116–119): try UTF-8 and, on
`UnicodeDecodeError`, fall back to Latin-1. -/
def doc_decode (bs : List Nat) : List Char :=
  match decodeUtf8 bs with
  | some cs => cs
  | none => decodeLatin1 bs

end Dash_KPI_readDOC

namespace Dash_html_read

/-- The decoding step of `parse_testlink_html` (`Dash_html_read.py` lines
14–19): `decode("utf-8")` only; a `UnicodeDecodeError` is caught by the
surrounding generic `except`, which shows an error and returns `None` —
modelled by `none`.  There is no Latin-1 fallback. -/
def html_decode (bs : List Nat) : Option (List Char) := decodeUtf8 bs

end Dash_html_read

namespace Dashxml

/-- The decoding step of `parse_testlink_xml` (`Dashxml.py` lines 11–18):
`decode("utf-8")` inside a `try` that catches only `ET.ParseError`, so a
`UnicodeDecodeError` propagates uncaught — modelled by `none`.  There is no
Latin-1 fallback. -/
def xml_decode (bs : List Nat) : Option (List Char) := decodeUtf8 bs

/-- The status mapping of `parse_testlink_xml` (`Dashxml.py` lines 30–34):
the testcase's `execution/status` text defaults to `"n"` when the node is
absent, then `status_map.get` maps `p/f/b/n` and anything else to
`Desconhecido`. -/
def status_map_get (status_char : Line) : Line :=
  if status_char = ("p").data then ("Passou").data
  else if status_char = ("f").data then ("Falhou").data
  else if status_char = ("b").data then ("Bloqueado").data
  else if status_char = ("n").data then ("Não Executado").data
  else ("Desconhecido").data

/-- Status of one testcase element: `status_node.text` when the execution
and status nodes exist (`none` models their absence), else `'n'`. -/
def testcase_status (statusText : Option Line) : Line :=
  status_map_get (statusText.getD (("n").data))

/-- The testcase loop of `parse_testlink_xml` (`Dashxml.py` lines 20–38),
abstracted over the (name, execution/status text) pairs of the `.//testcase`
elements: each element independently yields `{'Nome do Teste', 'Status'}`. -/
def parse_testlink_xml_cases (tcs : List (Line × Option Line)) : List (Line × Line) :=
  tcs.map (fun p => (p.1, testcase_status p.2))

end Dashxml

/-- Written from the spec's words for comparison (`§4.2`, claim C4): "the
first status/comment match found in that window" — the status capture of the
FIRST window line on which either status regex matches (`Estado` taking
priority within a line, as in the code). -/
def spec_first_window_status (window : List Line) : Option Line :=
  (window.filterMap (fun ln =>
    match regex_status_est ln with
    | some w => some (pyStrip w)
    | none =>
      match regex_status_res ln with
      | some w => some (pyStrip w)
      | none => none)).head?

/-- The per-line status capture actually used by the lookahead loop: the
`Estado` capture if any (it overwrites the `Resultado` one), else the
`Resultado` capture. -/
def lineStatusCap (ln : Line) : Option Line :=
  match regex_status_est ln with
  | some w => some (pyStrip w)
  | none =>
    match regex_status_res ln with
    | some w => some (pyStrip w)
    | none => none

/-! ## Helper lemmas -/

theorem getLastD_cons {α : Type} (l : List α) :
    ∀ (a d : α), ((a :: l).getLast?).getD d = (l.getLast?).getD a := by
  induction l with
  | nil => intro a d; rfl
  | cons b t ih =>
    intro a d
    rw [List.getLast?_cons_cons]
    exact (ih b d).trans (ih b a).symm

theorem filter_length_mono {α : Type} (p q : α → Bool) (l : List α)
    (h : ∀ x ∈ l, p x = true → q x = true) :
    (l.filter p).length ≤ (l.filter q).length := by
  induction l with
  | nil => simp
  | cons a t ih =>
    have ht := ih (fun x hx => h x (List.mem_cons_of_mem a hx))
    cases hp : p a with
    | false =>
      cases hq : q a <;> simp only [List.filter_cons, hp, hq, if_true, if_false,
        Bool.false_eq_true, List.length_cons] <;> omega
    | true =>
      have hq := h a (List.mem_cons_self a t) hp
      simp only [List.filter_cons, hp, hq, if_true, List.length_cons]
      omega

theorem filter_length_split {α : Type} (p : α → Bool) (l : List α) :
    (l.filter p).length + (l.filter (fun x => !p x)).length = l.length := by
  induction l with
  | nil => rfl
  | cons a t ih =>
    cases hp : p a <;>
      simp only [List.filter_cons, hp, Bool.not_false, Bool.not_true, if_true, if_false,
        Bool.false_eq_true, List.length_cons] <;> omega

theorem countVal_cons (x a : Line) (t : List Line) :
    countVal x (a :: t) = (if a = x then 1 else 0) + countVal x t := by
  by_cases ha : a = x
  · simp [countVal, List.filter_cons, ha]
    omega
  · simp [countVal, List.filter_cons, ha]

theorem countVal_eq_zero (x : Line) (l : List Line) : countVal x l = 0 ↔ x ∉ l := by
  induction l with
  | nil => simp [countVal]
  | cons a t ih =>
    rw [countVal_cons, List.mem_cons]
    by_cases ha : a = x
    · subst ha; simp
    · have hxa : ¬x = a := fun hh => ha hh.symm
      simp [ha, hxa, ih]

theorem statusCounts_keys (sts : List Line) :
    (statusCounts sts).map Prod.fst = sts.dedup := by
  simp [statusCounts, List.map_map, Function.comp_def]

theorem pGo_mem_decomp (lines : List Line) :
    ∀ (st : Dash_Plataforma.PState) (r : Dash_Plataforma.PRecord),
      r ∈ Dash_Plataforma.pGo st lines →
      ∃ pre mid post w, lines = pre ++ mid :: post ∧
        Dash_Plataforma.regex_platform (pyStrip mid) = none ∧
        Dash_Plataforma.regex_story (pyStrip mid) = none ∧
        Dash_Plataforma.statusSearch (pyStrip mid) = some w ∧
        r = ⟨(List.foldl Dash_Plataforma.pStep st pre).platform,
             (List.foldl Dash_Plataforma.pStep st pre).story_id, pyStrip w⟩ := by
  induction lines with
  | nil => intro st r h; simp [Dash_Plataforma.pGo] at h
  | cons line rest ih =>
    intro st r h
    cases hp : Dash_Plataforma.regex_platform (pyStrip line) with
    | some p =>
      simp only [Dash_Plataforma.pGo, hp] at h
      obtain ⟨pre, mid, post, w, hl, h1, h2, h3, hr⟩ := ih _ r h
      have hstep : Dash_Plataforma.pStep st line = ⟨pyStrip p, st.story_id⟩ := by
        simp [Dash_Plataforma.pStep, hp]
      exact ⟨line :: pre, mid, post, w, by rw [hl, List.cons_append], h1, h2, h3,
        by rw [hr, List.foldl_cons, hstep]⟩
    | none =>
      cases hs : Dash_Plataforma.regex_story (pyStrip line) with
      | some sid =>
        simp only [Dash_Plataforma.pGo, hp, hs] at h
        obtain ⟨pre, mid, post, w, hl, h1, h2, h3, hr⟩ := ih _ r h
        have hstep : Dash_Plataforma.pStep st line = ⟨st.platform, pyStrip sid⟩ := by
          simp [Dash_Plataforma.pStep, hp, hs]
        exact ⟨line :: pre, mid, post, w, by rw [hl, List.cons_append], h1, h2, h3,
          by rw [hr, List.foldl_cons, hstep]⟩
      | none =>
        have hstep : Dash_Plataforma.pStep st line = st := by
          simp [Dash_Plataforma.pStep, hp, hs]
        cases hw : Dash_Plataforma.statusSearch (pyStrip line) with
        | some w =>
          simp only [Dash_Plataforma.pGo, hp, hs, hw] at h
          rcases List.mem_cons.mp h with hr | h2
          · exact ⟨[], line, rest, w, rfl, hp, hs, hw, hr⟩
          · obtain ⟨pre, mid, post, w2, hl, g1, g2, g3, hr⟩ := ih _ r h2
            exact ⟨line :: pre, mid, post, w2, by rw [hl, List.cons_append], g1, g2, g3,
              by rw [hr, List.foldl_cons, hstep]⟩
        | none =>
          simp only [Dash_Plataforma.pGo, hp, hs, hw] at h
          obtain ⟨pre, mid, post, w2, hl, g1, g2, g3, hr⟩ := ih _ r h
          exact ⟨line :: pre, mid, post, w2, by rw [hl, List.cons_append], g1, g2, g3,
            by rw [hr, List.foldl_cons, hstep]⟩

theorem scanWindow_fst (w : List Line) :
    ∀ (acc : Line × Line),
      (List.foldl DashQA.statusLineUpd acc w).1 =
        ((w.filterMap lineStatusCap).getLast?).getD acc.1 := by
  induction w with
  | nil => intro acc; rfl
  | cons ln t ih =>
    intro acc
    rw [List.foldl_cons, ih]
    cases hres : regex_status_res ln <;> cases hest : regex_status_est ln <;>
      simp [DashQA.statusLineUpd, lineStatusCap, hres, hest, List.filterMap_cons, getLastD_cons]

theorem qaGo_mem_decomp (lines : List Line) :
    ∀ (st : DashQA.QaState) (r : DashQA.QaRecord),
      r ∈ DashQA.qaGo st lines →
      ∃ pre mid post g, lines = pre ++ mid :: post ∧
        DashQA.regex_platform (pyStrip mid) = none ∧
        DashQA.regex_story (pyStrip mid) = none ∧
        DashQA.regex_test_case (pyStrip mid) = some g ∧
        (List.foldl DashQA.qaStep st pre).story_id ≠ (("Não Identificado").data) ∧
        r = ⟨(List.foldl DashQA.qaStep st pre).platform,
             (List.foldl DashQA.qaStep st pre).story_id,
             (List.foldl DashQA.qaStep st pre).story_title,
             pyStrip g.1, pyStrip g.2,
             (DashQA.scanStatusComments ((mid :: post).take 10)).1,
             (DashQA.scanStatusComments ((mid :: post).take 10)).2⟩ := by
  induction lines with
  | nil => intro st r h; simp [DashQA.qaGo] at h
  | cons line rest ih =>
    intro st r h
    cases hp : DashQA.regex_platform (pyStrip line) with
    | some p =>
      simp only [DashQA.qaGo, hp] at h
      obtain ⟨pre, mid, post, g, hl, h1, h2, h3, h4, hr⟩ := ih _ r h
      have hstep : DashQA.qaStep st line = { st with platform := pyStrip p } := by
        simp [DashQA.qaStep, hp]
      exact ⟨line :: pre, mid, post, g, by rw [hl, List.cons_append], h1, h2, h3,
        by rw [List.foldl_cons, hstep]; exact h4,
        by rw [hr, List.foldl_cons, hstep]⟩
    | none =>
      cases hs : DashQA.regex_story (pyStrip line) with
      | some sg =>
        simp only [DashQA.qaGo, hp, hs] at h
        obtain ⟨pre, mid, post, g, hl, h1, h2, h3, h4, hr⟩ := ih _ r h
        have hstep : DashQA.qaStep st line =
            { st with story_id := pyStrip sg.1, story_title := pyStrip sg.2 } := by
          simp [DashQA.qaStep, hp, hs]
        exact ⟨line :: pre, mid, post, g, by rw [hl, List.cons_append], h1, h2, h3,
          by rw [List.foldl_cons, hstep]; exact h4,
          by rw [hr, List.foldl_cons, hstep]⟩
      | none =>
        have hstep : DashQA.qaStep st line = st := by
          simp [DashQA.qaStep, hp, hs]
        cases htc : DashQA.regex_test_case (pyStrip line) with
        | some g0 =>
          simp only [DashQA.qaGo, hp, hs, htc] at h
          rcases List.mem_append.mp h with hhead | htail
          · by_cases hid : st.story_id ≠ (("Não Identificado").data)
            · rw [if_pos hid] at hhead
              rcases List.mem_singleton.mp hhead with hr
              exact ⟨[], line, rest, g0, rfl, hp, hs, htc, hid, hr⟩
            · rw [if_neg hid] at hhead
              exact absurd hhead (List.not_mem_nil r)
          · obtain ⟨pre, mid, post, g, hl, h1, h2, h3, h4, hr⟩ := ih _ r htail
            exact ⟨line :: pre, mid, post, g, by rw [hl, List.cons_append], h1, h2, h3,
              by rw [List.foldl_cons, hstep]; exact h4,
              by rw [hr, List.foldl_cons, hstep]⟩
        | none =>
          simp only [DashQA.qaGo, hp, hs, htc] at h
          obtain ⟨pre, mid, post, g, hl, h1, h2, h3, h4, hr⟩ := ih _ r h
          exact ⟨line :: pre, mid, post, g, by rw [hl, List.cons_append], h1, h2, h3,
            by rw [List.foldl_cons, hstep]; exact h4,
            by rw [hr, List.foldl_cons, hstep]⟩

theorem computeKpis_eval (sts : List Line) (t p e : Nat) (pe ps : Rat)
    (ht : sts.length = t)
    (hp : (sts.filter (fun s => containsCI s (("Passou").data))).length = p)
    (he : (sts.filter (fun s => !containsCI s (("Não Executado").data))).length = e)
    (hpe : (if 0 < t then (e : Rat) / (t : Rat) * 100 else 0) = pe)
    (hps : (if 0 < e then (p : Rat) / (e : Rat) * 100 else 0) = ps) :
    computeKpis sts = ⟨t, p, e, pe, ps⟩ := by
  simp only [computeKpis]
  rw [ht, hp, he, hpe, hps]

/-! ## Claim C1 -/

/-- C1 (corrected): every record emitted by the line-based extractors
carries the platform/story values of the most recently matched header, i.e.
the header context folded over the lines preceding the record's status or
test-case line (`pStep` / `qaStep` starting from the sentinel-initial
state); `process_extracted_data` emits a record even when no header preceded
it, tagged with the "Não Identificada" sentinels, but
`processar_dados_extraidos` only emits a record when a story header has been
seen: each of its records has `story_id ≠ "Não Identificado"`, and a test
case preceded by no story header is dropped rather than emitted with the
sentinel. -/
theorem c1_most_recent_header_amended :
    (∀ (lines : List Line) (r : Dash_Plataforma.PRecord),
        r ∈ Dash_Plataforma.pGo Dash_Plataforma.pInit lines →
        ∃ pre mid post w, lines = pre ++ mid :: post ∧
          Dash_Plataforma.regex_platform (pyStrip mid) = none ∧
          Dash_Plataforma.regex_story (pyStrip mid) = none ∧
          Dash_Plataforma.statusSearch (pyStrip mid) = some w ∧
          r = ⟨(List.foldl Dash_Plataforma.pStep Dash_Plataforma.pInit pre).platform,
               (List.foldl Dash_Plataforma.pStep Dash_Plataforma.pInit pre).story_id,
               pyStrip w⟩) ∧
    (∀ (line w : Line),
        Dash_Plataforma.regex_platform (pyStrip line) = none →
        Dash_Plataforma.regex_story (pyStrip line) = none →
        Dash_Plataforma.statusSearch (pyStrip line) = some w →
        Dash_Plataforma.pGo Dash_Plataforma.pInit [line] =
          [⟨("Não Identificada").data, ("Não Identificada").data, pyStrip w⟩]) ∧
    (∀ (lines : List Line) (r : DashQA.QaRecord),
        r ∈ DashQA.qaGo DashQA.qaInit lines →
        r.story_id ≠ (("Não Identificado").data) ∧
        ∃ pre mid post g, lines = pre ++ mid :: post ∧
          DashQA.regex_platform (pyStrip mid) = none ∧
          DashQA.regex_story (pyStrip mid) = none ∧
          DashQA.regex_test_case (pyStrip mid) = some g ∧
          r = ⟨(List.foldl DashQA.qaStep DashQA.qaInit pre).platform,
               (List.foldl DashQA.qaStep DashQA.qaInit pre).story_id,
               (List.foldl DashQA.qaStep DashQA.qaInit pre).story_title,
               pyStrip g.1, pyStrip g.2,
               (DashQA.scanStatusComments ((mid :: post).take 10)).1,
               (DashQA.scanStatusComments ((mid :: post).take 10)).2⟩) := by
  refine ⟨fun lines r h => pGo_mem_decomp lines Dash_Plataforma.pInit r h,
    fun line w hp hs hw => ?_,
    fun lines r h => ?_⟩
  · simp [Dash_Plataforma.pGo, hp, hs, hw, Dash_Plataforma.pInit]
  · obtain ⟨pre, mid, post, g, hl, h1, h2, h3, h4, hr⟩ :=
      qaGo_mem_decomp lines DashQA.qaInit r h
    constructor
    · rw [hr]
      exact h4
    · exact ⟨pre, mid, post, g, hl, h1, h2, h3, hr⟩

/-- C1 counterexample: the claim as stated is false for
`processar_dados_extraidos` — on an input whose first line is a recognized
test-case header with no preceding story header, no record is emitted at
all (rather than a record tagged "Não Identificado"). -/
theorem c1_counterexample :
    DashQA.regex_test_case (pyStrip (("Caso de Teste AB-1: X").data)) =
      some ((("AB-1").data, ("X").data)) ∧
    DashQA.qaGo DashQA.qaInit
      [("Caso de Teste AB-1: X").data, ("Resultado da Execução: Passou").data] = [] := by
  constructor
  · decide
  · decide

/-- Witness for C1 at concrete inputs. -/
theorem c1_witness :
    (∃ pre mid post w,
      ([("Resultado da Execução: Passou").data] : List Line) = pre ++ mid :: post ∧
      Dash_Plataforma.regex_platform (pyStrip mid) = none ∧
      Dash_Plataforma.regex_story (pyStrip mid) = none ∧
      Dash_Plataforma.statusSearch (pyStrip mid) = some w ∧
      (⟨("Não Identificada").data, ("Não Identificada").data, ("Passou").data⟩ :
          Dash_Plataforma.PRecord) =
        ⟨(List.foldl Dash_Plataforma.pStep Dash_Plataforma.pInit pre).platform,
         (List.foldl Dash_Plataforma.pStep Dash_Plataforma.pInit pre).story_id,
         pyStrip w⟩) ∧
    ((⟨("Não Identificado").data, ("AB-1").data, ("T").data, ("AB-2").data, ("X").data,
        ("Passou").data, []⟩ : DashQA.QaRecord).story_id ≠ (("Não Identificado").data) ∧
      ∃ pre mid post g,
        ([("Suite de Testes : AB-1 T").data, ("Caso de Teste AB-2: X").data,
          ("Resultado da Execução: Passou").data] : List Line) = pre ++ mid :: post ∧
        DashQA.regex_platform (pyStrip mid) = none ∧
        DashQA.regex_story (pyStrip mid) = none ∧
        DashQA.regex_test_case (pyStrip mid) = some g ∧
        (⟨("Não Identificado").data, ("AB-1").data, ("T").data, ("AB-2").data, ("X").data,
            ("Passou").data, []⟩ : DashQA.QaRecord) =
          ⟨(List.foldl DashQA.qaStep DashQA.qaInit pre).platform,
           (List.foldl DashQA.qaStep DashQA.qaInit pre).story_id,
           (List.foldl DashQA.qaStep DashQA.qaInit pre).story_title,
           pyStrip g.1, pyStrip g.2,
           (DashQA.scanStatusComments ((mid :: post).take 10)).1,
           (DashQA.scanStatusComments ((mid :: post).take 10)).2⟩) :=
  ⟨c1_most_recent_header_amended.1 [("Resultado da Execução: Passou").data]
      ⟨("Não Identificada").data, ("Não Identificada").data, ("Passou").data⟩ (by decide),
    c1_most_recent_header_amended.2.2
      [("Suite de Testes : AB-1 T").data, ("Caso de Teste AB-2: X").data,
        ("Resultado da Execução: Passou").data]
      ⟨("Não Identificado").data, ("AB-1").data, ("T").data, ("AB-2").data, ("X").data,
        ("Passou").data, []⟩ (by decide)⟩

/-! ## Claim C2 -/

/-- C2 (confirmed): "Falhou" and "Falhado" normalize to one and the same
canonical status in every variant — `unifyStatus` (the pandas `replace` of
`DashQA.py`/`Dash_Plataforma.py`) sends both to "Falhado", and
`parse_status` of `Dash_KPI_readDOC.py` sends both to "Falhou" — and after
unification "Falhou" never occurs as a status value, hence never as a
`status_counts` key, so the counts can never contain both spellings. -/
theorem c2_falhou_falhado_unified :
    (∀ sts : List Line, countVal (("Falhou").data) (sts.map unifyStatus) = 0) ∧
    (∀ sts : List Line,
      countVal (("Falhou").data) ((statusCounts (sts.map unifyStatus)).map Prod.fst) = 0) ∧
    unifyStatus (("Falhou").data) = unifyStatus (("Falhado").data) ∧
    Dash_KPI_readDOC.parse_status (("Falhou").data) = some (("Falhou").data) ∧
    Dash_KPI_readDOC.parse_status (("Falhado").data) = some (("Falhou").data) := by
  have hne : ∀ s : Line, unifyStatus s ≠ (("Falhou").data) := by
    intro s
    by_cases hs : s = ("Falhou").data
    · simp only [unifyStatus, hs, if_pos]
      decide
    · simp [unifyStatus, hs]
  have h1 : ∀ sts : List Line, countVal (("Falhou").data) (sts.map unifyStatus) = 0 := by
    intro sts
    induction sts with
    | nil => rfl
    | cons a t ih => rw [List.map_cons, countVal_cons, if_neg (hne a), ih]
  refine ⟨h1, fun sts => ?_, by decide, by decide, by decide⟩
  rw [statusCounts_keys]
  exact (countVal_eq_zero _ _).mpr fun hmem =>
    ((countVal_eq_zero _ _).mp (h1 sts)) (List.mem_dedup.mp hmem)

/-! ## Claim C3 -/

/-- C3 (confirmed): for every record list the KPI block satisfies
`executed = total − (number of records whose status is "Não Executado")`,
`percent_execution = executed/total·100` when `total > 0` and `0` when
`total = 0`, and `percent_success = passed/executed·100` when `executed > 0`
and `0` when `executed = 0`; the function is total, so no division-by-zero
error can escape. -/
theorem c3_kpi_equations :
    ∀ sts : List Line,
      (computeKpis sts).executed_cases =
        (computeKpis sts).total_cases - nao_executado_count sts ∧
      (0 < (computeKpis sts).total_cases →
        (computeKpis sts).percent_execution =
          ((computeKpis sts).executed_cases : Rat) /
            ((computeKpis sts).total_cases : Rat) * 100) ∧
      ((computeKpis sts).total_cases = 0 → (computeKpis sts).percent_execution = 0) ∧
      (0 < (computeKpis sts).executed_cases →
        (computeKpis sts).percent_success =
          ((computeKpis sts).passed_cases : Rat) /
            ((computeKpis sts).executed_cases : Rat) * 100) ∧
      ((computeKpis sts).executed_cases = 0 → (computeKpis sts).percent_success = 0) := by
  intro sts
  have key : ∀ (p : Line → Bool) (l : List Line),
      (l.filter (fun s => !p s)).length = l.length - (l.filter p).length := by
    intro p l
    have h := filter_length_split p l
    omega
  simp only [computeKpis, nao_executado_count]
  exact ⟨key (fun s => containsCI s (("Não Executado").data)) sts,
    fun h => if_pos h, fun h => by simp [h], fun h => if_pos h, fun h => by simp [h]⟩

/-- Witness for C3 at concrete inputs. -/
theorem c3_witness :
    (computeKpis [("Passou").data]).percent_execution =
      ((computeKpis [("Passou").data]).executed_cases : Rat) /
        ((computeKpis [("Passou").data]).total_cases : Rat) * 100 ∧
    (computeKpis ([] : List Line)).percent_execution = 0 ∧
    (computeKpis ([] : List Line)).percent_success = 0 ∧
    (computeKpis [("Passou").data]).executed_cases =
      (computeKpis [("Passou").data]).total_cases - nao_executado_count [("Passou").data] :=
  ⟨(c3_kpi_equations [("Passou").data]).2.1 (by decide),
   (c3_kpi_equations []).2.2.1 (by decide),
   (c3_kpi_equations []).2.2.2.2 (by decide),
   (c3_kpi_equations [("Passou").data]).1⟩

/-! ## Claim C4 -/

/-- C4 (corrected): when a test-case header is recognized on a line, the
extractor scans the window formed by that line itself plus up to nine
following lines (`lines[i..i+9]`, i.e. `take 10` of the suffix starting at
the header); within the window every match overwrites the previous one, so
the LAST status capture wins (with `Estado da Execução` overriding
`Resultado da Execução` on one and the same line); if no window line
matches, the status is the default "Não Executado", and the record is still
built from it. -/
theorem c4_window_amended :
    (∀ window : List Line,
        (DashQA.scanStatusComments window).1 =
          ((window.filterMap lineStatusCap).getLast?).getD (("Não Executado").data)) ∧
    (∀ (st : DashQA.QaState) (line : Line) (rest : List Line) (g : Line × Line),
        DashQA.regex_platform (pyStrip line) = none →
        DashQA.regex_story (pyStrip line) = none →
        DashQA.regex_test_case (pyStrip line) = some g →
        DashQA.qaGo st (line :: rest) =
          (if st.story_id ≠ (("Não Identificado").data) then
            [⟨st.platform, st.story_id, st.story_title, pyStrip g.1, pyStrip g.2,
              (DashQA.scanStatusComments ((line :: rest).take 10)).1,
              (DashQA.scanStatusComments ((line :: rest).take 10)).2⟩]
          else []) ++ DashQA.qaGo st rest) := by
  constructor
  · intro window
    simpa [DashQA.scanStatusComments] using
      scanWindow_fst window ((("Não Executado").data), [])
  · intro st line rest g h1 h2 h3
    simp only [DashQA.qaGo, h1, h2, h3]

/-- C4 counterexample: with a second status line inside the window the
emitted status is the LAST match ("Falhou"), not the first ("Passou") that
the claim prescribes; and a status on the tenth line after the header —
inside the claim's window of "10 subsequent lines" — is out of the code's
window, leaving the record "Não Executado". -/
theorem c4_counterexample :
    ((DashQA.qaGo DashQA.qaInit
        [("Suite de Testes : AB-1 T").data, ("Caso de Teste AB-2: X").data,
          ("Resultado da Execução: Passou").data,
          ("Resultado da Execução: Falhou").data]).map (fun r => r.status) =
        [("Falhou").data] ∧
      spec_first_window_status
        [("Resultado da Execução: Passou").data, ("Resultado da Execução: Falhou").data] =
        some (("Passou").data)) ∧
    ((DashQA.qaGo DashQA.qaInit
        ([("Suite de Testes : AB-1 T").data, ("Caso de Teste AB-2: X").data] ++
          List.replicate 9 (("x").data) ++
          [("Resultado da Execução: Passou").data])).map (fun r => r.status) =
        [("Não Executado").data] ∧
      regex_status_res (("Resultado da Execução: Passou").data) = some (("Passou").data)) := by
  exact ⟨⟨by decide, by decide⟩, ⟨by decide, by decide⟩⟩

/-- Witness for C4 at a concrete input. -/
theorem c4_witness :
    DashQA.qaGo DashQA.qaInit
      (("Caso de Teste AB-2: X").data :: [("Resultado da Execução: Passou").data]) =
      (if DashQA.qaInit.story_id ≠ (("Não Identificado").data) then
        [⟨DashQA.qaInit.platform, DashQA.qaInit.story_id, DashQA.qaInit.story_title,
          pyStrip (("AB-2").data), pyStrip (("X").data),
          (DashQA.scanStatusComments
            ((("Caso de Teste AB-2: X").data ::
              [("Resultado da Execução: Passou").data]).take 10)).1,
          (DashQA.scanStatusComments
            ((("Caso de Teste AB-2: X").data ::
              [("Resultado da Execução: Passou").data]).take 10)).2⟩]
      else []) ++ DashQA.qaGo DashQA.qaInit [("Resultado da Execução: Passou").data] :=
  c4_window_amended.2 DashQA.qaInit (("Caso de Teste AB-2: X").data)
    [("Resultado da Execução: Passou").data] ((("AB-2").data, ("X").data))
    (by decide) (by decide) (by decide)

/-! ## Claim C5 -/

/-- C5 (confirmed): on the three-line scenario (the spec's conceptual
triggers "Test Suite : … / Test Case … / Execution Result: …" are the code's
Portuguese literals "Suite de Testes : … / Caso de Teste … / Resultado da
Execução: …") the pipeline yields exactly one record
{story_id ABC-100, story_title "Title X", test_case_id ABC-101, status
Passou} and KPIs total 1, passed 1, executed 1, 100 % execution and 100 %
success. -/
theorem c5_scenario :
    (DashQA.processar_dados_extraidos
        [("Suite de Testes : ABC-100 Title X").data, ("Caso de Teste ABC-101: Check X").data,
          ("Resultado da Execução: Passou").data]).warned = false ∧
    (DashQA.processar_dados_extraidos
        [("Suite de Testes : ABC-100 Title X").data, ("Caso de Teste ABC-101: Check X").data,
          ("Resultado da Execução: Passou").data]).df_platform_stories =
      [⟨("Não Identificado").data, ("ABC-100").data, ("Title X").data, ("ABC-101").data,
        ("Check X").data, ("Passou").data, []⟩] ∧
    (DashQA.processar_dados_extraidos
        [("Suite de Testes : ABC-100 Title X").data, ("Caso de Teste ABC-101: Check X").data,
          ("Resultado da Execução: Passou").data]).df_status = [(("Passou").data, 1)] ∧
    (DashQA.processar_dados_extraidos
        [("Suite de Testes : ABC-100 Title X").data, ("Caso de Teste ABC-101: Check X").data,
          ("Resultado da Execução: Passou").data]).df_stories =
      [((("Não Identificado").data, ("ABC-100").data, ("Title X").data, ("Passou").data), 1)] ∧
    (DashQA.processar_dados_extraidos
        [("Suite de Testes : ABC-100 Title X").data, ("Caso de Teste ABC-101: Check X").data,
          ("Resultado da Execução: Passou").data]).kpis = some ⟨1, 1, 1, 100, 100⟩ := by
  have hgo : DashQA.qaGo DashQA.qaInit
      [("Suite de Testes : ABC-100 Title X").data, ("Caso de Teste ABC-101: Check X").data,
        ("Resultado da Execução: Passou").data] =
      [⟨("Não Identificado").data, ("ABC-100").data, ("Title X").data, ("ABC-101").data,
        ("Check X").data, ("Passou").data, []⟩] := by decide
  have harg :
      (([⟨("Não Identificado").data, ("ABC-100").data, ("Title X").data, ("ABC-101").data,
          ("Check X").data, ("Passou").data, []⟩] : List DashQA.QaRecord).map
        (fun x => { x with status := unifyStatus x.status })).map (fun x => x.status) =
      [("Passou").data] := by decide
  have hk : computeKpis [("Passou").data] = ⟨1, 1, 1, 100, 100⟩ :=
    computeKpis_eval _ 1 1 1 100 100 (by decide) (by decide) (by decide)
      (by norm_num) (by norm_num)
  refine ⟨by decide, by decide, by decide, by decide, ?_⟩
  simp only [DashQA.processar_dados_extraidos, hgo]
  rw [harg, hk]

/-! ## Claim C6 -/

/-- C6 (confirmed): whenever extraction finds zero records, both pipelines
return the explicitly empty result — warning flag set, empty status table,
empty (`{}`) KPI mapping, empty grouped and record tables — and, being total
functions, raise nothing past the pipeline boundary. -/
theorem c6_empty_result :
    (∀ lines : List Line, DashQA.qaGo DashQA.qaInit lines = [] →
      DashQA.processar_dados_extraidos lines = ⟨true, [], none, [], []⟩) ∧
    (∀ lines : List Line, Dash_Plataforma.pGo Dash_Plataforma.pInit lines = [] →
      Dash_Plataforma.process_extracted_data lines = ⟨true, [], none, []⟩) := by
  constructor
  · intro lines h
    simp only [DashQA.processar_dados_extraidos, h]
  · intro lines h
    simp only [Dash_Plataforma.process_extracted_data, h]

/-- Witness for C6 at a concrete input with no recognizable structure. -/
theorem c6_witness :
    DashQA.processar_dados_extraidos [("hello world").data] = ⟨true, [], none, [], []⟩ ∧
    Dash_Plataforma.process_extracted_data [("hello world").data] = ⟨true, [], none, []⟩ :=
  ⟨c6_empty_result.1 [("hello world").data] (by decide),
   c6_empty_result.2 [("hello world").data] (by decide)⟩

/-! ## Claim C7 -/

/-- C7 (corrected): only `extract_data_from_html_doc` attempts UTF-8 and
falls back to Latin-1 on failure; `parse_testlink_html` and
`parse_testlink_xml` attempt UTF-8 only — on undecodable bytes the former
reports an error and returns `None` and the latter raises an uncaught
`UnicodeDecodeError` (both modelled by `none`), so the fallback does not
hold for every input format variant. -/
theorem c7_decode_fallback_amended :
    ∀ bs : List Nat,
      (∀ cs, decodeUtf8 bs = some cs →
        Dash_KPI_readDOC.doc_decode bs = cs ∧
        Dash_html_read.html_decode bs = some cs ∧
        Dashxml.xml_decode bs = some cs) ∧
      (decodeUtf8 bs = none →
        Dash_KPI_readDOC.doc_decode bs = decodeLatin1 bs ∧
        Dash_html_read.html_decode bs = none ∧
        Dashxml.xml_decode bs = none) := by
  intro bs
  constructor
  · intro cs h
    refine ⟨?_, h, h⟩
    simp [Dash_KPI_readDOC.doc_decode, h]
  · intro h
    refine ⟨?_, h, h⟩
    simp [Dash_KPI_readDOC.doc_decode, h]

/-- C7 counterexample: the byte `0xE7` ("ç" in Latin-1) is not valid UTF-8;
`extract_data_from_html_doc` decodes it via the Latin-1 fallback, but the
HTML and XML readers produce a failure instead of the fallback text that the
claim prescribes for every variant. -/
theorem c7_counterexample :
    decodeUtf8 [231] = none ∧
    Dash_KPI_readDOC.doc_decode [231] = decodeLatin1 [231] ∧
    Dash_html_read.html_decode [231] = none ∧
    Dashxml.xml_decode [231] = none :=
  ⟨by decide, by decide, by decide, by decide⟩

/-- Witness for C7 at concrete byte strings (valid UTF-8 "ç" and the lone
Latin-1 byte for "ç"). -/
theorem c7_witness :
    (Dash_KPI_readDOC.doc_decode [195, 167] = [Char.ofNat 231] ∧
      Dash_html_read.html_decode [195, 167] = some [Char.ofNat 231] ∧
      Dashxml.xml_decode [195, 167] = some [Char.ofNat 231]) ∧
    (Dash_KPI_readDOC.doc_decode [231] = decodeLatin1 [231] ∧
      Dash_html_read.html_decode [231] = none ∧
      Dashxml.xml_decode [231] = none) :=
  ⟨(c7_decode_fallback_amended [195, 167]).1 [Char.ofNat 231] (by decide),
   (c7_decode_fallback_amended [231]).2 (by decide)⟩

/-! ## Claim C8 -/

/-- C8 (corrected): in the line-based variants a status token outside the
canonical vocabulary is preserved verbatim with its exact multiplicity by
the `Falhou ↦ Falhado` unification, so it survives as its own category in
records and counts; but in the `Dash_KPI_readDOC.py` variant `parse_status`
maps unrecognized tokens to `None` and the `if status:` guard drops those
rows from the tally entirely. -/
theorem c8_unknown_status_amended :
    (∀ (sts : List Line) (s : Line),
        s ∉ ([("Passou").data, ("Falhou").data, ("Falhado").data, ("Bloqueado").data,
              ("Não Executado").data] : List Line) →
        countVal s (sts.map unifyStatus) = countVal s sts) ∧
    (∀ (t : Line) (ts : List Line), Dash_KPI_readDOC.parse_status t = none →
        Dash_KPI_readDOC.status_tally (t :: ts) = Dash_KPI_readDOC.status_tally ts) := by
  constructor
  · intro sts s hs
    simp only [List.mem_cons, List.not_mem_nil, or_false, not_or] at hs
    obtain ⟨-, hsFalhou, hsFalhado, -, -⟩ := hs
    induction sts with
    | nil => rfl
    | cons a t ih =>
      rw [List.map_cons, countVal_cons, countVal_cons, ih]
      by_cases ha : a = ("Falhou").data
      · rw [ha, show unifyStatus (("Falhou").data) = ("Falhado").data by decide,
          if_neg (show ¬((("Falhado").data : Line) = s) from fun hh => hsFalhado hh.symm),
          if_neg (show ¬((("Falhou").data : Line) = s) from fun hh => hsFalhou hh.symm)]
      · rw [show unifyStatus a = a by simp [unifyStatus, ha]]
  · intro t ts h
    simp [Dash_KPI_readDOC.status_tally, List.filterMap_cons, h]

/-- C8 counterexample: the recognized-but-unknown token "Aprovado" is
normalized to `None` and dropped from the tally — it is neither preserved
verbatim nor counted. -/
theorem c8_counterexample :
    Dash_KPI_readDOC.parse_status (("Aprovado").data) = none ∧
    Dash_KPI_readDOC.status_tally [("Aprovado").data] = [] :=
  ⟨by decide, by decide⟩

/-- Witness for C8 at concrete inputs. -/
theorem c8_witness :
    countVal (("Aprovado").data) ([("Aprovado").data, ("Falhou").data].map unifyStatus) =
      countVal (("Aprovado").data) [("Aprovado").data, ("Falhou").data] ∧
    Dash_KPI_readDOC.status_tally (("Aprovado").data :: [("Passou").data]) =
      Dash_KPI_readDOC.status_tally [("Passou").data] :=
  ⟨c8_unknown_status_amended.1 [("Aprovado").data, ("Falhou").data] (("Aprovado").data)
      (by decide),
   c8_unknown_status_amended.2 (("Aprovado").data) [("Passou").data] (by decide)⟩

/-! ## Claim C9 -/

/-- C9 (confirmed): `parse_testlink_xml` maps each testcase element
independently (a per-element `map`, no lookahead) with
`p ↦ Passou`, `f ↦ Falhou`, `b ↦ Bloqueado`, and an absent
execution/status node defaults to `'n' ↦ Não Executado`. -/
theorem c9_xml_status_map :
    (∀ tcs : List (Line × Option Line),
        Dashxml.parse_testlink_xml_cases tcs =
          tcs.map (fun p => (p.1, Dashxml.testcase_status p.2))) ∧
    Dashxml.testcase_status (some (("p").data)) = ("Passou").data ∧
    Dashxml.testcase_status (some (("f").data)) = ("Falhou").data ∧
    Dashxml.testcase_status (some (("b").data)) = ("Bloqueado").data ∧
    Dashxml.testcase_status none = ("Não Executado").data :=
  ⟨fun _ => rfl, by decide, by decide, by decide, by decide⟩

/-! ## Claim C10 -/

/-- C10 (corrected): the claimed invariant
`passed ≤ executed ≤ total` (and both percentages in `[0, 100]`) holds for
every record list in which no status is classified both as passed and as
not-executed — i.e. no status contains "passou" and "não executado"
case-insensitively at once (every status the extractors can produce
satisfies this, being a single `\w+` word or exactly "Não Executado"). -/
theorem c10_kpi_bounds_amended :
    ∀ sts : List Line,
      (∀ s ∈ sts, containsCI s (("Passou").data) = true →
        containsCI s (("Não Executado").data) = false) →
      (computeKpis sts).passed_cases ≤ (computeKpis sts).executed_cases ∧
      (computeKpis sts).executed_cases ≤ (computeKpis sts).total_cases ∧
      0 ≤ (computeKpis sts).percent_execution ∧
      (computeKpis sts).percent_execution ≤ 100 ∧
      0 ≤ (computeKpis sts).percent_success ∧
      (computeKpis sts).percent_success ≤ 100 := by
  intro sts h
  have hfrac : ∀ (a b : Nat), a ≤ b →
      (if 0 < b then (a : Rat) / (b : Rat) * 100 else 0) ≤ 100 := by
    intro a b hab
    by_cases hb : 0 < b
    · rw [if_pos hb]
      have hb2 : (0 : Rat) < (b : Rat) := by exact_mod_cast hb
      have h1 : (a : Rat) / (b : Rat) ≤ 1 := by
        rw [div_le_one hb2]
        exact_mod_cast hab
      calc (a : Rat) / (b : Rat) * 100 ≤ 1 * 100 :=
            mul_le_mul_of_nonneg_right h1 (by norm_num)
        _ = 100 := by norm_num
    · rw [if_neg hb]
      norm_num
  have hnn : ∀ (a b : Nat), 0 ≤ (if 0 < b then (a : Rat) / (b : Rat) * 100 else 0) := by
    intro a b
    by_cases hb : 0 < b
    · rw [if_pos hb]
      positivity
    · rw [if_neg hb]
  have hPE : (sts.filter (fun s => containsCI s (("Passou").data))).length ≤
      (sts.filter (fun s => !containsCI s (("Não Executado").data))).length :=
    filter_length_mono _ _ sts (fun x hx hp => by rw [h x hx hp]; rfl)
  have hET : (sts.filter (fun s => !containsCI s (("Não Executado").data))).length ≤
      sts.length := List.length_filter_le _ _
  simp only [computeKpis]
  exact ⟨hPE, hET, hnn _ _, hfrac _ _ hET, hnn _ _, hfrac _ _ hPE⟩

/-- C10 counterexample: over an arbitrary record list the invariant fails —
for statuses ["Passou não executado", "Passou"] the passed count (2)
exceeds the executed count (1) and the success percentage is 200, outside
[0, 100]. -/
theorem c10_counterexample :
    (computeKpis [("Passou não executado").data, ("Passou").data]).executed_cases <
      (computeKpis [("Passou não executado").data, ("Passou").data]).passed_cases ∧
    (computeKpis [("Passou não executado").data, ("Passou").data]).percent_success = 200 := by
  have hk : computeKpis [("Passou não executado").data, ("Passou").data] = ⟨2, 2, 1, 50, 200⟩ :=
    computeKpis_eval _ 2 2 1 50 200 (by decide) (by decide) (by decide)
      (by norm_num) (by norm_num)
  rw [hk]
  exact ⟨by norm_num, rfl⟩

/-- Witness for C10 at a concrete record list. -/
theorem c10_witness :
    (computeKpis [("Passou").data, ("Não Executado").data]).passed_cases ≤
      (computeKpis [("Passou").data, ("Não Executado").data]).executed_cases ∧
    (computeKpis [("Passou").data, ("Não Executado").data]).executed_cases ≤
      (computeKpis [("Passou").data, ("Não Executado").data]).total_cases ∧
    0 ≤ (computeKpis [("Passou").data, ("Não Executado").data]).percent_execution ∧
    (computeKpis [("Passou").data, ("Não Executado").data]).percent_execution ≤ 100 ∧
    0 ≤ (computeKpis [("Passou").data, ("Não Executado").data]).percent_success ∧
    (computeKpis [("Passou").data, ("Não Executado").data]).percent_success ≤ 100 :=
  c10_kpi_bounds_amended [("Passou").data, ("Não Executado").data] (by decide)
